import Mathlib

/-!
Verification of the CoinSensei login / second-factor authentication core.

The definitions below are a shallow embedding of the repository's code:

* `TwoFactorService` (client) from `services/twoFactorService.ts`:
  `generateTOTP`, `verifyTOTP`, `generateTOTPForTime`, `verifyOTP`.
* The server-side SQL functions (`verify_otp`, `generate_backup_codes`)
  from the 2FA migration script.
* The authentication orchestrator from `context/AuthContext.tsx` and the
  login screen (`handleLogin`, `handleResendEmailOtp`, `handle2FASuccess`,
  `cancel2FALogin`, `complete2FALogin`, `complete2FAUsingExistingSession`,
  `signInWithBiometric`, and the `onAuthStateChange` listener).

The external `totp-generator` library is modelled as an abstract function
`gen : String → Nat → Option String` mapping a secret and the current time
to the 6-digit code, with `none` standing for a thrown library error.
Asynchronous effects are modelled by explicit state passing over
`AuthState`; component state (React `useState` values and the module-level
`pending2FACredentials` holder) are fields of that state. One exception is
deliberate: the `onAuthStateChange` callback is subscribed exactly once,
inside an effect with an empty dependency list, so the callback closes
over the initial-render values of `suppress2FA` and `isBiometricLogin`
(both `false`) and never sees later updates to them; the embedding makes
the capture explicit through the `capturedSuppress2FA` and
`capturedIsBiometricLogin` arguments, which every event delivery fixes to
`false`.
-/

/-- One user's 2FA security data as stored in `user_profile`
(`two_factor_enabled`, `two_factor_secret`, `backup_codes`). -/
structure SecurityProfile where
  twoFactorEnabled : Bool
  twoFactorSecret : Option String
  backupCodes : Option (List String)
  deriving Repr, DecidableEq

/-- `TwoFactorService.generateTOTP`: calls the external library
(`TOTP.generate(secret)`) at the current time `now`; a `none` result models
the library throwing (the client rethrows). -/
def generateTOTP (gen : String → Nat → Option String) (secret : String)
    (now : Nat) : Option String :=
  gen secret now

/-- `TwoFactorService.verifyTOTP`: regenerates the code for the current
time and compares for exact string equality; returns `false` (instead of
propagating the error) when generation fails. -/
def verifyTOTP (gen : String → Nat → Option String) (secret token : String)
    (now : Nat) : Bool :=
  match generateTOTP gen secret now with
  | some g => token == g
  | none => false

/-- `TwoFactorService.generateTOTPForTime(secret, time)`: the body calls
`TOTP.generate(secret)` without passing `time`, so the code produced is the
one for the current time `now`; the `time` argument is unused, exactly as
in the source. -/
def generateTOTPForTime (gen : String → Nat → Option String)
    (secret : String) (time : Nat) (now : Nat) : Option String :=
  generateTOTP gen secret now

/-- Server-side SQL function `verify_otp(user_id, otp)`: when the stored
backup-code array contains `otp`, it removes every matching entry
(`array_remove`) and returns `TRUE`; otherwise it falls through to the
final `RETURN TRUE` (the script's own comment defers TOTP checking to the
app). Returns the result together with the updated profile row. -/
def verify_otp (p : SecurityProfile) (otp : String) :
    Bool × SecurityProfile :=
  match p.backupCodes with
  | some codes =>
    if otp ∈ codes then
      (true, { p with backupCodes := some (codes.filter (fun c => c != otp)) })
    else
      (true, p)
  | none => (true, p)

/-- `TwoFactorService.verifyOTP(userId, otp)`: for 6-character input with a
stored secret, tries local TOTP verification first and returns `true` on a
match; otherwise falls back to the server-side `verify_otp` RPC. The pair
carries the (possibly updated) profile row. -/
def verifyOTP (gen : String → Nat → Option String) (now : Nat)
    (p : SecurityProfile) (otp : String) : Bool × SecurityProfile :=
  if otp.length = 6 then
    match p.twoFactorSecret with
    | some secret =>
      if verifyTOTP gen secret otp now then (true, p)
      else verify_otp p otp
    | none => verify_otp p otp
  else
    verify_otp p otp

/-- A concrete stand-in for the external TOTP library: at every time it
yields the spec's example code for the example secret. -/
def demoGen : String → Nat → Option String :=
  fun _ _ => some "482913"

/-- The end-to-end example profile from the spec: 2FA enabled, secret
`JBSWY3DPEHPK3PXP`, one backup code. -/
def demoProfile : SecurityProfile :=
  { twoFactorEnabled := true
    twoFactorSecret := some "JBSWY3DPEHPK3PXP"
    backupCodes := some ["11111111"] }

/-- Profile used for the backup-code reuse scenario. -/
def demoProfileBackup : SecurityProfile :=
  { twoFactorEnabled := true
    twoFactorSecret := some "JBSWY3DPEHPK3PXP"
    backupCodes := some ["12345678"] }

/-- C1: a candidate code that is neither the current TOTP (`"482913"`) nor
a member of the stored backup-code set is claimed to verify as `false`;
the code instead returns `true`, because the server-side `verify_otp`
function falls through to an unconditional `RETURN TRUE` when the code is
not a recognized backup code. Here `"000000"` fails the local TOTP check
and is not in the backup set, yet `verifyOTP` yields `true`. -/
theorem C1_wrong_code_returns_true :
    (verifyOTP demoGen 0 demoProfile "000000").1 = true ∧
    "000000" ≠ "482913" ∧
    ("000000" ∈ ["11111111"]) = False := by
  refine ⟨rfl, by decide, by simp⟩

/-- C2: after a backup code is consumed by a successful `verifyCode`, a
second call with the same code is claimed to return `false`; the code
instead returns `true` again, because once the code is gone from the
backup array the server-side `verify_otp` falls through to `RETURN TRUE`.
The first call consumes `"12345678"` (the stored set becomes empty), and
the second call on the updated profile still reports success. -/
theorem C2_consumed_backup_code_still_verifies :
    (verifyOTP demoGen 0 demoProfileBackup "12345678").1 = true ∧
    (verifyOTP demoGen 0 demoProfileBackup "12345678").2.backupCodes
      = some [] ∧
    (verifyOTP demoGen 0
      (verifyOTP demoGen 0 demoProfileBackup "12345678").2 "12345678").1
      = true := by
  refine ⟨rfl, rfl, rfl⟩

/-- C9: when generation succeeds for the current time step,
`verifyTOTP secret (generateTOTP secret)` is `true`; and when the library
errors internally (generation yields `none`), `verifyTOTP` returns `false`
for every token instead of throwing (it is a total `Bool`-valued
function). -/
theorem C9_verify_roundtrip (gen : String → Nat → Option String)
    (secret : String) (now : Nat) :
    (∀ c, generateTOTP gen secret now = some c →
      verifyTOTP gen secret c now = true) ∧
    (generateTOTP gen secret now = none →
      ∀ token, verifyTOTP gen secret token now = false) := by
  constructor
  · intro c hc
    simp [verifyTOTP, hc]
  · intro hnone token
    simp [verifyTOTP, hnone]

/-- Witness for C9 at the spec's literal example: the demo generator
produces `"482913"` for the example secret, and verifying that very code
succeeds. -/
theorem C9_verify_roundtrip_witness :
    verifyTOTP demoGen "JBSWY3DPEHPK3PXP" "482913" 0 = true :=
  (C9_verify_roundtrip demoGen "JBSWY3DPEHPK3PXP" 0).1 "482913" rfl

/-- C10: `generateTOTPForTime` ignores its `time` argument — for any two
requested times it produces the same code, namely the one `generateTOTP`
produces for the current time. -/
theorem C10_time_argument_ignored (gen : String → Nat → Option String)
    (secret : String) (t1 t2 now : Nat) :
    generateTOTPForTime gen secret t1 now
      = generateTOTPForTime gen secret t2 now ∧
    generateTOTPForTime gen secret t1 now = generateTOTP gen secret now :=
  ⟨rfl, rfl⟩

/-- Kinds of auth-state events delivered by the provider's
`onAuthStateChange` subscription. -/
inductive AuthChangeEvent where
  | signedIn
  | tokenRefreshed
  | userUpdated
  | signedOut
  deriving Repr, DecidableEq

/-- Entries of the observable action trace: the primary-credential check
(`signInWithPassword`), the explicit `signOut`, and the email one-time-code
send (`signInWithOtp`). -/
inductive TraceEv where
  | passwordSignIn
  | signOutFired
  | otpSent
  deriving Repr, DecidableEq

/-- The orchestrator's state: provider session, established user profile,
the pending-2FA marker (`SecondFactorPending` when `some`), a sticky flag
recording whether the 2FA prompt was ever shown, the module-level
`pending2FACredentials` holder, the `isBiometricLogin` and `suppress2FA`
flags, the device vault (biometric credentials plus enabled flag), the
login screen's email-OTP modal state and resend countdown, alerts shown,
the number of fresh `signInWithPassword` re-authentications performed by
`complete2FALogin`, and the action trace. -/
structure AuthState where
  session : Option String
  user : Option String
  pending2FA : Option String
  everPending2FA : Bool
  creds : Option (String × String)
  isBiometricLogin : Bool
  suppress2FA : Bool
  vault : Option (String × String)
  biometricEnabled : Bool
  emailOtpModal : Bool
  resendSecondsLeft : Nat
  sendingEmailOtp : Bool
  alerts : List String
  reauthCount : Nat
  trace : List TraceEv
  deriving Repr, DecidableEq

/-- A fresh orchestrator state (nothing in flight). -/
def initAuthState : AuthState :=
  { session := none, user := none, pending2FA := none
    everPending2FA := false, creds := none, isBiometricLogin := false
    suppress2FA := false, vault := none, biometricEnabled := false
    emailOtpModal := false, resendSecondsLeft := 0, sendingEmailOtp := false
    alerts := [], reauthCount := 0, trace := [] }

/-- `fetchUserData(userId)`: loads the profile row and materializes the
user when it exists (`setUser(userWithKYC)`), otherwise clears the user.
`profiles` maps a user id to its `two_factor_enabled` flag when the
profile row exists. -/
def fetchUserData (profiles : String → Option Bool) (uid : String)
    (s : AuthState) : AuthState :=
  match profiles uid with
  | some _ => { s with user := some uid }
  | none => { s with user := none }

/-- The `onAuthStateChange` listener from `AuthContext`: returns early
when the captured `suppress2FA` is raised; skips `TOKEN_REFRESHED` and
`USER_UPDATED` events; on a session-bearing event checks the account's
`two_factor_enabled` flag and, for a genuine `SIGNED_IN` with the
captured `isBiometricLogin` down, enters the pending-2FA state; otherwise
fetches the user data. Without a session it clears the user and
pending-2FA state.

The subscription is installed once, in an effect with an empty dependency
list, so the callback reads the `suppress2FA` and `isBiometricLogin`
values captured at the initial render — both `false` — and never the
current component state; they are therefore parameters of the callback,
not reads of `s`, and every delivery below passes `false` for both. -/
def onAuthStateChange (profiles : String → Option Bool)
    (capturedSuppress2FA capturedIsBiometricLogin : Bool)
    (ev : AuthChangeEvent) (session : Option String) (s : AuthState) :
    AuthState :=
  if capturedSuppress2FA then s
  else
    match session with
    | some uid =>
      if ev = AuthChangeEvent.tokenRefreshed ∨ ev = AuthChangeEvent.userUpdated
      then s
      else
        match profiles uid with
        | none => fetchUserData profiles uid s
        | some requires2FA =>
          if requires2FA = true ∧ ev = AuthChangeEvent.signedIn ∧
              capturedIsBiometricLogin = false then
            { s with pending2FA := some uid, everPending2FA := true }
          else
            fetchUserData profiles uid { s with pending2FA := none }
    | none =>
      { s with user := none, pending2FA := none }

/-- `handleLogin` from the login screen. `authFn` is the identity
provider's password check (`signInWithPassword`), returning the user id on
success. Step 1 raises `suppress2FA` (`beginEmailOtpFlow`), checks the
password (the provider fires a `SIGNED_IN` event), then immediately signs
out (firing `SIGNED_OUT`) and lowers the flag; step 2 sends the email
one-time code (`signInWithOtp`) and opens the email-OTP modal with a
30-second resend countdown. On a rejected password only an alert is
surfaced. The raised `suppress2FA` field never reaches the subscribed
listener, whose closure captured the initial `false`, so both events are
handled as ordinary ones. -/
def handleLogin (profiles : String → Option Bool)
    (authFn : String → String → Option String) (email pw : String)
    (s : AuthState) : AuthState :=
  if email = "" ∨ pw = "" then
    { s with alerts := s.alerts ++ ["Please fill in all fields"] }
  else
    let s0 := { s with suppress2FA := true }
    match authFn email pw with
    | none => { s0 with alerts := s0.alerts ++ ["login error"] }
    | some uid =>
      let s1 := onAuthStateChange profiles false false
        AuthChangeEvent.signedIn (some uid)
        { s0 with session := some uid
                  trace := s0.trace ++ [TraceEv.passwordSignIn] }
      let s2 := onAuthStateChange profiles false false
        AuthChangeEvent.signedOut none
        { s1 with session := none
                  trace := s1.trace ++ [TraceEv.signOutFired] }
      let s3 := { s2 with suppress2FA := false }
      let s4 := { s3 with trace := s3.trace ++ [TraceEv.otpSent] }
      { s4 with emailOtpModal := true, resendSecondsLeft := 30 }

/-- `complete2FALogin` from `AuthContext`: requires both a pending-2FA
marker and retained credentials; performs a fresh `signInWithPassword`
with the retained credentials (counted in `reauthCount`), clears the
retained credentials, and on success establishes the session and user; on
re-authentication failure everything is cleared and the session is signed
out. Without pending context it logs and does nothing. -/
def complete2FALogin (authFn : String → String → Option String)
    (s : AuthState) : AuthState :=
  match s.pending2FA, s.creds with
  | some _, some (e, p) =>
    let s1 := { s with pending2FA := none, reauthCount := s.reauthCount + 1
                       trace := s.trace ++ [TraceEv.passwordSignIn] }
    match authFn e p with
    | none => { s1 with creds := none, session := none, user := none }
    | some uid =>
      { s1 with creds := none, session := some uid, user := some uid }
  | _, _ => s

/-- `complete2FAUsingExistingSession` from `AuthContext`: reads the current
session; with no active session it only logs; otherwise it clears the
pending-2FA marker and fetches the user data using that session, touching
neither the retained credentials nor the session itself. -/
def complete2FAUsingExistingSession (profiles : String → Option Bool)
    (s : AuthState) : AuthState :=
  match s.session with
  | none => s
  | some uid => fetchUserData profiles uid { s with pending2FA := none }

/-- `handle2FASuccess` from the login screen: because the auth context
always provides `complete2FAUsingExistingSession`, the truthiness guard
`if (complete2FAUsingExistingSession)` selects the existing-session path;
the `complete2FALogin` branch is unreachable on this screen. -/
def handle2FASuccess (profiles : String → Option Bool) (s : AuthState) :
    AuthState :=
  complete2FAUsingExistingSession profiles s

/-- `cancel2FALogin` from `AuthContext`: clears the pending-2FA marker and
the retained credentials and awaits `signOut`, which removes the provider
session. -/
def cancel2FALogin (s : AuthState) : AuthState :=
  { s with pending2FA := none, creds := none, session := none }

/-- `signInWithBiometric` from `AuthContext`: obtains the stored
credentials via the device biometric challenge (available only when the
feature is enabled and the challenge succeeds), raises the
`isBiometricLogin` field, replays the stored password through the
provider (firing `SIGNED_IN`), then fetches the user data directly and
lowers the field. Returns whether the sign-in completed. The raised
field never reaches the subscribed listener, whose closure captured the
initial `isBiometricLogin = false`, so the `SIGNED_IN` event is handled
as an ordinary fresh sign-in. -/
def signInWithBiometric (profiles : String → Option Bool)
    (challenge : Bool) (authFn : String → String → Option String)
    (s : AuthState) : Bool × AuthState :=
  match (if s.biometricEnabled && challenge then s.vault else none) with
  | none => (false, s)
  | some (e, p) =>
    let s1 := { s with isBiometricLogin := true }
    match authFn e p with
    | none => (false, { s1 with isBiometricLogin := false })
    | some uid =>
      let s2 := onAuthStateChange profiles false false
        AuthChangeEvent.signedIn (some uid)
        { s1 with session := some uid
                  trace := s1.trace ++ [TraceEv.passwordSignIn] }
      let s3 := fetchUserData profiles uid s2
      (true, { s3 with isBiometricLogin := false })

/-- `handleResendEmailOtp` from the login screen: while the resend
countdown is positive the handler returns immediately — no code is sent
and no alert is raised; otherwise it resends the email one-time code,
raises the `Code Sent` alert and restarts the 30-second countdown (or
raises an error alert when the send fails). -/
def handleResendEmailOtp (sendOk : Bool) (s : AuthState) : AuthState :=
  if s.resendSecondsLeft > 0 then s
  else if sendOk then
    { s with trace := s.trace ++ [TraceEv.otpSent]
             alerts := s.alerts ++ ["Code Sent"]
             resendSecondsLeft := 30 }
  else
    { s with alerts := s.alerts ++ ["resend error"] }

/-- The resend button's label: `Resending…` while a send is in flight,
the countdown text while the cooldown runs, else `Resend code`. -/
def emailResendLabel (s : AuthState) : String :=
  if s.sendingEmailOtp then "Resending"
  else if s.resendSecondsLeft > 0 then
    "Resend in " ++ toString s.resendSecondsLeft ++ "s"
  else "Resend code"

/-- The resend button's disabled predicate
(`sendingEmailOtp || resendSecondsLeft > 0`). -/
def emailResendDisabled (s : AuthState) : Bool :=
  s.sendingEmailOtp || decide (s.resendSecondsLeft > 0)

/-- A concrete identity provider accepting the two example accounts. -/
def demoAuthFn : String → String → Option String :=
  fun e p =>
    if e == "bob@example.com" && p == "Secret123" then some "u1"
    else if e == "alice@example.com" && p == "correct-password" then
      some "alice"
    else none

/-- A profile store in which every account has `two_factor_enabled`. -/
def demoProfiles : String → Option Bool := fun _ => some true

/-- State of a login attempt that has reached the second-factor step:
interim session present, 2FA pending, credentials retained. -/
def demo2FAState : AuthState :=
  { initAuthState with
      session := some "u1", pending2FA := some "u1"
      creds := some ("bob@example.com", "Secret123") }

/-- C3 counterexample: at the second-factor-success handler with an
interim session present and the password retained, the login screen
completes via `complete2FAUsingExistingSession` — no fresh
`signInWithPassword` happens (`reauthCount` stays 0, the trace stays
empty) and the retained password is not cleared. -/
theorem C3_counterexample_no_fresh_reauth :
    (handle2FASuccess demoProfiles demo2FAState).reauthCount = 0 ∧
    (handle2FASuccess demoProfiles demo2FAState).creds
      = some ("bob@example.com", "Secret123") ∧
    (handle2FASuccess demoProfiles demo2FAState).trace = [] := by
  refine ⟨rfl, rfl, rfl⟩

/-- C3 amended: when second-factor verification succeeds during login, the
orchestrator completes the login with the session left over from the
email-code step — the session is reused unchanged, no fresh
re-authentication is performed, the retained credentials are left in
place, and only the pending-2FA marker is cleared. -/
theorem C3_amended_existing_session_completion
    (profiles : String → Option Bool) (s : AuthState) (uid : String)
    (h : s.session = some uid) :
    (handle2FASuccess profiles s).session = s.session ∧
    (handle2FASuccess profiles s).creds = s.creds ∧
    (handle2FASuccess profiles s).reauthCount = s.reauthCount ∧
    (handle2FASuccess profiles s).trace = s.trace ∧
    (handle2FASuccess profiles s).pending2FA = none := by
  unfold handle2FASuccess complete2FAUsingExistingSession
  rw [h]
  cases hpu : profiles uid <;> simp [fetchUserData, hpu]

/-- Witness for the amended C3 at the demo second-factor state. -/
theorem C3_amended_witness :
    (handle2FASuccess demoProfiles demo2FAState).session
      = demo2FAState.session ∧
    (handle2FASuccess demoProfiles demo2FAState).creds
      = demo2FAState.creds ∧
    (handle2FASuccess demoProfiles demo2FAState).reauthCount
      = demo2FAState.reauthCount ∧
    (handle2FASuccess demoProfiles demo2FAState).trace
      = demo2FAState.trace ∧
    (handle2FASuccess demoProfiles demo2FAState).pending2FA = none :=
  C3_amended_existing_session_completion demoProfiles demo2FAState "u1" rfl

/-- The listener never writes the provider session: whichever branch it
takes, the `session` field is left untouched. -/
lemma onAuthStateChange_session (profiles : String → Option Bool)
    (cs cb : Bool) (ev : AuthChangeEvent) (sess : Option String)
    (s : AuthState) :
    (onAuthStateChange profiles cs cb ev sess s).session = s.session := by
  unfold onAuthStateChange fetchUserData
  repeat' split
  all_goals rfl

/-- The listener never appends to the action trace. -/
lemma onAuthStateChange_trace (profiles : String → Option Bool)
    (cs cb : Bool) (ev : AuthChangeEvent) (sess : Option String)
    (s : AuthState) :
    (onAuthStateChange profiles cs cb ev sess s).trace = s.trace := by
  unfold onAuthStateChange fetchUserData
  repeat' split
  all_goals rfl

/-- The listener never touches the email-OTP modal flag. -/
lemma onAuthStateChange_emailOtpModal (profiles : String → Option Bool)
    (cs cb : Bool) (ev : AuthChangeEvent) (sess : Option String)
    (s : AuthState) :
    (onAuthStateChange profiles cs cb ev sess s).emailOtpModal
      = s.emailOtpModal := by
  unfold onAuthStateChange fetchUserData
  repeat' split
  all_goals rfl

/-- C4: when the password check succeeds, `handleLogin` leaves no active
session once the email-code step begins: the trace records the password
check, then the explicit sign-out, then the email-code send, in that
order, the final session is absent, and the email-OTP step is open. The
conclusions hold whatever the auth listener does in between, since the
listener never writes the session or the trace. -/
theorem C4_signout_before_email_step (profiles : String → Option Bool)
    (authFn : String → String → Option String) (email pw : String)
    (s : AuthState) (uid : String) (he : email ≠ "") (hp : pw ≠ "")
    (ha : authFn email pw = some uid) :
    (handleLogin profiles authFn email pw s).session = none ∧
    (handleLogin profiles authFn email pw s).emailOtpModal = true ∧
    (handleLogin profiles authFn email pw s).trace
      = s.trace ++ [TraceEv.passwordSignIn, TraceEv.signOutFired,
                    TraceEv.otpSent] := by
  simp [handleLogin, he, hp, ha, onAuthStateChange_session,
    onAuthStateChange_trace, onAuthStateChange_emailOtpModal]

/-- Witness for C4 at the example account. -/
theorem C4_signout_witness :
    (handleLogin demoProfiles demoAuthFn "bob@example.com" "Secret123"
      initAuthState).session = none ∧
    (handleLogin demoProfiles demoAuthFn "bob@example.com" "Secret123"
      initAuthState).emailOtpModal = true ∧
    (handleLogin demoProfiles demoAuthFn "bob@example.com" "Secret123"
      initAuthState).trace
      = initAuthState.trace ++ [TraceEv.passwordSignIn,
          TraceEv.signOutFired, TraceEv.otpSent] :=
  C4_signout_before_email_step demoProfiles demoAuthFn "bob@example.com"
    "Secret123" initAuthState "u1" (by decide) (by decide) (by decide)

/-- State with the biometric feature enabled and the example credentials
in the device vault. -/
def demoBioState : AuthState :=
  { initAuthState with
      biometricEnabled := true
      vault := some ("alice@example.com", "correct-password") }

/-- C5 counterexample: at the biometric-shortcut scenario
(`alice@example.com`, 2FA enabled, challenge succeeds) the second-factor
prompt does appear — the `SIGNED_IN` listener closed over the initial
`isBiometricLogin = false`, so it enters the pending-2FA state (the
sticky `everPending2FA` flag is raised) and nothing on the biometric path
clears the pending marker afterwards, refuting the claim that the run
never enters `SecondFactorPending`. -/
theorem C5_counterexample_prompt_shown :
    (signInWithBiometric demoProfiles true demoAuthFn
      demoBioState).2.everPending2FA = true ∧
    (signInWithBiometric demoProfiles true demoAuthFn
      demoBioState).2.pending2FA = some "alice" := by
  refine ⟨rfl, rfl⟩

/-- C5 amended: with a stored biometric credential,
`twoFactorEnabled = true` for the account, and a successful device
challenge, `signInWithBiometric` reports success and materializes the
user from the established session, but the second-factor prompt still
appears during the run: the subscribed listener captured
`isBiometricLogin = false` at the initial render, so the `SIGNED_IN`
event takes the pending-2FA transition, and the pending marker is still
set when the call returns. -/
theorem C5_amended_biometric_prompt_still_shown
    (profiles : String → Option Bool)
    (authFn : String → String → Option String) (s : AuthState)
    (e p uid : String) (hbio : s.biometricEnabled = true)
    (hv : s.vault = some (e, p)) (ha : authFn e p = some uid)
    (h2fa : profiles uid = some true) :
    (signInWithBiometric profiles true authFn s).1 = true ∧
    (signInWithBiometric profiles true authFn s).2.user = some uid ∧
    (signInWithBiometric profiles true authFn s).2.pending2FA
      = some uid ∧
    (signInWithBiometric profiles true authFn s).2.everPending2FA
      = true := by
  simp [signInWithBiometric, onAuthStateChange, fetchUserData, hbio, hv,
    ha, h2fa]

/-- Witness for the amended C5 at the biometric-shortcut scenario. -/
theorem C5_amended_witness :
    (signInWithBiometric demoProfiles true demoAuthFn demoBioState).1
      = true ∧
    (signInWithBiometric demoProfiles true demoAuthFn demoBioState).2.user
      = some "alice" ∧
    (signInWithBiometric demoProfiles true demoAuthFn
      demoBioState).2.pending2FA = some "alice" ∧
    (signInWithBiometric demoProfiles true demoAuthFn
      demoBioState).2.everPending2FA = true :=
  C5_amended_biometric_prompt_still_shown demoProfiles demoAuthFn
    demoBioState "alice@example.com" "correct-password" "alice" rfl rfl
    (by decide) rfl

/-- C6: from any state, once `cancel2FALogin` returns, the session is
absent, the retained credentials and the pending-2FA marker are cleared,
and a second-factor completion attempted immediately afterwards — either
through the fresh-re-authentication path or through the login screen's
success handler — is a no-op for lack of context. -/
theorem C6_cancel_clears_context (profiles : String → Option Bool)
    (authFn : String → String → Option String) (s : AuthState) :
    (cancel2FALogin s).session = none ∧
    (cancel2FALogin s).creds = none ∧
    (cancel2FALogin s).pending2FA = none ∧
    complete2FALogin authFn (cancel2FALogin s) = cancel2FALogin s ∧
    handle2FASuccess profiles (cancel2FALogin s) = cancel2FALogin s := by
  refine ⟨rfl, rfl, rfl, rfl, rfl⟩

/-- Email-OTP step state with 5 seconds of resend cooldown left and no
alert shown so far. -/
def demoCooldownState : AuthState :=
  { initAuthState with emailOtpModal := true, resendSecondsLeft := 5 }

/-- C8 counterexample: a resend requested with 5 seconds of cooldown left
is dropped without any signal — the handler returns the state unchanged,
so no alert is raised (the alert list stays empty) and no code is sent
(the trace stays empty), contradicting the claim that the rejection
surfaces a wait-N-seconds signal. -/
theorem C8_counterexample_silent_drop :
    handleResendEmailOtp true demoCooldownState = demoCooldownState ∧
    demoCooldownState.resendSecondsLeft = 5 ∧
    demoCooldownState.alerts = [] ∧
    demoCooldownState.trace = [] := by
  refine ⟨rfl, rfl, rfl, rfl⟩

/-- C8 amended: a resend requested while the cooldown is active is
silently ignored by the handler (early return: no code sent, no alert,
state unchanged); the countdown is surfaced only passively by the UI,
which disables the resend button and labels it with the remaining
seconds. -/
theorem C8_amended_cooldown_resend (ok : Bool) (s : AuthState)
    (h : s.resendSecondsLeft > 0) :
    handleResendEmailOtp ok s = s ∧
    emailResendDisabled s = true ∧
    (s.sendingEmailOtp = false →
      emailResendLabel s
        = "Resend in " ++ toString s.resendSecondsLeft ++ "s") := by
  refine ⟨?_, ?_, ?_⟩
  · simp [handleResendEmailOtp, h]
  · simp [emailResendDisabled, h]
  · intro hs
    simp [emailResendLabel, hs, h]

/-- Witness for the amended C8 at the demo cooldown state. -/
theorem C8_amended_witness :
    handleResendEmailOtp true demoCooldownState = demoCooldownState ∧
    emailResendDisabled demoCooldownState = true ∧
    (demoCooldownState.sendingEmailOtp = false →
      emailResendLabel demoCooldownState
        = "Resend in " ++ toString demoCooldownState.resendSecondsLeft
            ++ "s") :=
  C8_amended_cooldown_resend true demoCooldownState (by decide)

/-- The characters of one backup code: the SQL expression
`lpad(n::TEXT, 8, chr(48))` for `n < 10^8` yields exactly the eight
decimal digits of `n`, most significant first, zero-padded. -/
def pad8chars (n : Nat) : List Char :=
  (List.range 8).map (fun j => Char.ofNat (48 + n / 10 ^ (7 - j) % 10))

/-- One backup code as a string. -/
def pad8 (n : Nat) : String :=
  String.mk (pad8chars n)

/-- Server-side SQL `generate_backup_codes(user_id)`: eight iterations of
`lpad(floor(random() * 100000000)::TEXT, 8, chr(48))`, collected into an
array; `rand i` models the i-th draw of the randomness source, reduced
modulo `10 ^ 8` to reflect `floor` of a uniform draw on `[0, 10^8)`. No
uniqueness check is performed on the batch. -/
def generate_backup_codes (rand : Nat → Nat) : List String :=
  (List.range 8).map (fun i => pad8 (rand i % 100000000))

/-- A decimal digit character is a digit. -/
lemma digitChar_isDigit (d : Nat) (hd : d < 10) :
    (Char.ofNat (48 + d)).isDigit = true := by
  interval_cases d <;> decide

/-- Every character of a backup code is a decimal digit. -/
lemma pad8chars_all_digits (n : Nat) :
    ∀ ch ∈ pad8chars n, ch.isDigit = true := by
  intro ch hch
  simp only [pad8chars, List.mem_map, List.mem_range] at hch
  obtain ⟨j, _, rfl⟩ := hch
  exact digitChar_isDigit _ (Nat.mod_lt _ (by norm_num))

/-- A backup code has exactly 8 characters. -/
lemma pad8_length (n : Nat) : (pad8 n).length = 8 := by
  simp [pad8, pad8chars, String.length]

/-- C7 counterexample: with a randomness source that yields the same value
on every draw, the generated batch contains repeated codes — the eight
codes are not pairwise distinct. -/
theorem C7_counterexample_duplicate_codes :
    ¬ (generate_backup_codes (fun _ => 0)).Nodup := by
  decide

/-- C7 amended: every call returns exactly 8 codes, each an 8-digit
numeric string; pairwise distinctness within the batch is not enforced —
it fails when the randomness source repeats a draw. -/
theorem C7_amended_eight_digit_codes (rand : Nat → Nat) :
    (generate_backup_codes rand).length = 8 ∧
    ∀ c ∈ generate_backup_codes rand,
      c.length = 8 ∧ ∀ ch ∈ c.data, ch.isDigit = true := by
  constructor
  · simp [generate_backup_codes]
  · intro c hc
    simp only [generate_backup_codes, List.mem_map, List.mem_range] at hc
    obtain ⟨i, _, rfl⟩ := hc
    exact ⟨pad8_length _, pad8chars_all_digits _⟩

/-- Witness for the amended C7: the constant-zero randomness source gives
a batch of 8 codes, and its first code `00000000` is an 8-digit numeric
string. -/
theorem C7_amended_witness :
    (generate_backup_codes (fun _ => 0)).length = 8 ∧
    ("00000000".length = 8 ∧
      ∀ ch ∈ "00000000".data, ch.isDigit = true) :=
  ⟨(C7_amended_eight_digit_codes (fun _ => 0)).1,
    (C7_amended_eight_digit_codes (fun _ => 0)).2 "00000000" (by decide)⟩
